import Mathlib

/-!
Shallow embedding of the `turnservicecli` package of
strukturag/spreed-turnservicecli: the TURN credential cache
(`TURNService`), the self-expiring credential wrapper
(`CachedCredentialsData`) and the fetch-decision logic of
`fetchCredentials`.

Modelling conventions:
* Unix timestamps and Go `int64` values are `Int`; Go integer division
  truncates toward zero, which is `Int.tdiv`.
* Go pointers that are never nil in the modelled scenarios
  (`*CredentialsData` inside a response, the `Turn` field) are plain
  values; the nilable `service.credentials` pointer is an `Option`.
* Channels are reduced to the one observable fact the code depends on:
  whether `close` has already been called on them (`quitClosed`); a Go
  `close` of an already-closed channel panics, modelled as `none` in an
  `Option`-returning operation.
* The network call inside `fetchCredentials` is an oracle parameter
  `NetOutcome` describing what the HTTP layer produced; everything the
  Go code does after `client.Do` is embedded faithfully.
* The code is embedded under sequential semantics: lock acquisition is
  dropped and the double-checked re-read of `service.credentials` after
  taking the write lock collapses to the value read at entry.
* The expiration timer goroutine of a `CachedCredentialsData` is
  modelled by its delay (`timerExpiry`) and by the time-indexed
  observation `observeAt`; its firing, and a `Close`, are the two
  transitions of `CredStep`.
-/

namespace Turnservicecli

/-- `URNsWithID` from data.go: TURN server group with ID. -/
structure URNsWithID where
  ID : String
  URNs : List String
  Prio : Int
  deriving DecidableEq, Repr

/-- `CredentialsData` from data.go: TURN credentials with servers. -/
structure CredentialsData where
  TTL : Int
  Username : String
  Password : String
  Servers : List URNsWithID
  GeoURI : String
  deriving DecidableEq, Repr

/-- `CredentialsResponse` from data.go: the REST response body
(`Turn` is a `*CredentialsData` in Go, modelled as a value). -/
structure CredentialsResponse where
  Success : Bool
  Nonce : String
  Turn : CredentialsData
  Session : String
  deriving DecidableEq, Repr

/-- `CachedCredentialsData` from the cached-data file: credentials plus
expiration state. `expires` is the absolute Unix time `creation + TTL`;
`expired` is set by the timer goroutine, `closed` by `Close`;
`quitClosed` records whether `close(c.quit)` has been executed. -/
structure CachedCredentialsData where
  Turn : CredentialsData
  expires : Int
  expired : Bool
  closed : Bool
  quitClosed : Bool
  deriving DecidableEq, Repr

/-- `NewCachedCredentialsData` (state at the moment of creation, before
the expiration goroutine has run): `expires = time.Now().Unix() + turn.TTL`,
flags clear, `quit` channel open. -/
def NewCachedCredentialsData (turn : CredentialsData) (now : Int) :
    CachedCredentialsData :=
  { Turn := turn, expires := now + turn.TTL, expired := false,
    closed := false, quitClosed := false }

/-- The delay computed by the expiration goroutine of
`NewCachedCredentialsData`: `expiry := turn.TTL / 100 * int64(expirationPercentile)`
with Go's truncated `int64` division. -/
def timerExpiry (turn : CredentialsData) (expirationPercentile : Nat) : Int :=
  Int.tdiv turn.TTL 100 * (expirationPercentile : Int)

/-- Observation of a `CachedCredentialsData` created at `created` with the
given percentile, at time `now`, assuming only its expiration goroutine has
acted (no `Close`): the goroutine sets `expired` once `timerExpiry` seconds
have elapsed. -/
def observeAt (turn : CredentialsData) (expirationPercentile : Nat)
    (created now : Int) : CachedCredentialsData :=
  let c := NewCachedCredentialsData turn created
  if created + timerExpiry turn expirationPercentile ≤ now then
    { c with expired := true }
  else
    c

/-- `Expired` method: `c.expired || c.closed`. -/
def CachedCredentialsData.Expired (c : CachedCredentialsData) : Bool :=
  c.expired || c.closed

/-- `TTL` method of `CachedCredentialsData`: remaining true TTL,
`ttl := c.expires - time.Now().Unix()`, clamped at 0. -/
def CachedCredentialsData.TTL (c : CachedCredentialsData) (now : Int) : Int :=
  let ttl := c.expires - now
  if ttl < 0 then 0 else ttl

/-- `Close` method of `CachedCredentialsData`: when the timer has not yet
fired it executes `close(c.quit)` — which panics (`none`) if that channel
is already closed — and then sets `closed`. -/
def CachedCredentialsData.Close (c : CachedCredentialsData) :
    Option CachedCredentialsData :=
  if !c.expired then
    if c.quitClosed then
      none
    else
      some { c with quitClosed := true, closed := true }
  else
    some { c with closed := true }

/-- The two transitions acting on a `CachedCredentialsData` after its
creation: the expiration goroutine waking up (by timeout or because the
quit channel was closed) and setting `expired`, and a call to `Close`. -/
inductive CredStep where
  | fire
  | close
  deriving DecidableEq, Repr

/-- Effect of one transition on the credential state; a `Close` that
panics leaves the flags as they were (the writes never execute). -/
def applyStep (c : CachedCredentialsData) : CredStep → CachedCredentialsData
  | .fire => { c with expired := true }
  | .close => (CachedCredentialsData.Close c).getD c

/-- The error kinds `fetchCredentials` can produce, one per `return nil/err`
or `return &response, err` site in turnservice.go. -/
inductive FetchErr where
  | configError
  | requestError
  | transportError
  | forbidden (content : String)
  | wrongStatus (code : Nat)
  | decodeError
  | unsuccessful
  | invalidNonce
  deriving DecidableEq, Repr

/-- Integrity errors per the response-validation checks at the end of
`fetchCredentials`: body parsed but `success` is false, or the echoed
nonce differs from the sent one. -/
def FetchErr.isIntegrity : FetchErr → Bool
  | .unsuccessful => true
  | .invalidNonce => true
  | _ => false

/-- Oracle for what the HTTP layer inside `fetchCredentials` produced:
request construction failure, transport failure, non-200 statuses,
a 200 whose body fails to decode, or a decoded `CredentialsResponse`. -/
inductive NetOutcome where
  | requestErr
  | transportErr
  | status403 (content : String)
  | statusOther (code : Nat)
  | decodeErr
  | ok (response : CredentialsResponse)
  deriving DecidableEq, Repr

/-- The fixed placeholder nonce sent by `fetchCredentials`. -/
def nonce : String := "make-me-random"

/-- The Go pair `(*CredentialsResponse, error)` returned by
`fetchCredentials`. -/
structure FetchResult where
  response : Option CredentialsResponse
  err : Option FetchErr
  deriving DecidableEq, Repr

/-- `fetchCredentials` of `TURNService`: the guard on the identity inputs,
then the post-network classification of the outcome. The guard fires
before any request is built, so the result ignores `net` in that case. -/
def fetchCredentials (accessToken clientID session : String)
    (net : NetOutcome) : FetchResult :=
  if accessToken = "" ∧ clientID = "" then
    { response := none, err := some .configError }
  else
    match net with
    | .requestErr => { response := none, err := some .requestError }
    | .transportErr => { response := none, err := some .transportError }
    | .status403 content => { response := none, err := some (.forbidden content) }
    | .statusOther code => { response := none, err := some (.wrongStatus code) }
    | .decodeErr => { response := none, err := some .decodeError }
    | .ok response =>
      if !response.Success then
        { response := some response, err := some .unsuccessful }
      else if response.Nonce ≠ nonce then
        { response := some response, err := some .invalidNonce }
      else
        { response := some response, err := none }

/-- `TURNService` state (the `sync.RWMutex` and `tls.Config` are dropped;
`handlers` keeps only the length of the handler slice; `refresh` and
`quit` channels are reduced to whether `quit` has been closed). -/
structure TURNService where
  uri : String
  expirationPercentile : Nat
  session : String
  accessToken : String
  clientID : String
  credentials : Option CachedCredentialsData
  err : Option FetchErr
  autorefresh : Bool
  handlers : Nat
  quitClosed : Bool
  deriving DecidableEq, Repr

/-- `NewTURNService`: percentile 0 is replaced by the default 80; all
other fields start empty, the quit channel open. -/
def NewTURNService (uri : String) (expirationPercentile : Nat) : TURNService :=
  let expirationPercentile :=
    if expirationPercentile = 0 then 80 else expirationPercentile
  { uri := uri, expirationPercentile := expirationPercentile, session := "",
    accessToken := "", clientID := "", credentials := none, err := none,
    autorefresh := false, handlers := 0, quitClosed := false }

/-- `Open`: sets the identity fields used for requests. -/
def TURNService.Open (service : TURNService)
    (accessToken clientID session : String) : TURNService :=
  { service with
    accessToken := accessToken, clientID := clientID, session := session }

/-- `BindOnCredentials`: appends a handler to the slice (only the count
is tracked). -/
def TURNService.BindOnCredentials (service : TURNService) : TURNService :=
  { service with handlers := service.handlers + 1 }

/-- `Close` of `TURNService`: `close(service.quit)` — a panic (`none`) if
already closed — then `service.credentials.Close()` if present (which may
itself panic), then the identity fields are cleared. -/
def TURNService.Close (service : TURNService) : Option TURNService :=
  if service.quitClosed then
    none
  else
    match service.credentials with
    | none =>
      some { service with
        quitClosed := true, accessToken := "", clientID := "",
        session := "" }
    | some c =>
      (CachedCredentialsData.Close c).map fun c' =>
        { service with
          quitClosed := true, credentials := some c', accessToken := "",
          clientID := "", session := "" }

/-- Result of one sequential run of `Credentials`: the post-state, the
returned pointer, the `fetchCredentials` result when a fetch was
performed, the argument pair handlers were spawned with (`none` when the
handler loop was not reached), and how many handler goroutines were
spawned. -/
structure CredsResult where
  state : TURNService
  ret : Option CachedCredentialsData
  fetchRes : Option FetchResult
  notified : Option (Option CachedCredentialsData × Option FetchErr)
  notifyCount : Nat
  deriving DecidableEq, Repr

/-- Shared tail of `Credentials`: install the response when a fetch
succeeded (`response != nil && err == nil`), then spawn every registered
handler with the local `credentials` and `err`, and return `credentials`. -/
def credsTail (service : TURNService)
    (credentials : Option CachedCredentialsData)
    (response : Option CredentialsResponse) (err : Option FetchErr)
    (fetchRes : Option FetchResult) (now : Int) : CredsResult :=
  let installed :=
    match response, err with
    | some resp, none =>
      let c := NewCachedCredentialsData resp.Turn now
      ({ service with credentials := some c, session := resp.Session }, some c)
    | _, _ => (service, credentials)
  { state := installed.1, ret := installed.2, fetchRes := fetchRes,
    notified := some (installed.2, err), notifyCount := service.handlers }

/-- `Credentials` of `TURNService` under sequential semantics. The
`fetch` flag, the network oracle and the current time are inputs; the
double-checked re-reads of `service.credentials` under the write lock
equal the value read at entry and are collapsed. -/
def TURNService.Credentials (service : TURNService) (fetch : Bool)
    (net : NetOutcome) (now : Int) : CredsResult :=
  match service.credentials with
  | none =>
    if fetch then
      let fr := fetchCredentials service.accessToken service.clientID
        service.session net
      let service1 :=
        if fr.err.isSome then { service with err := fr.err } else service
      credsTail service1 none fr.response fr.err (some fr) now
    else
      { state := service, ret := none, fetchRes := none, notified := none,
        notifyCount := 0 }
  | some credentials =>
    if credentials.Expired then
      if fetch then
        let fr := fetchCredentials service.accessToken service.clientID
          service.session net
        let service1 := { service with err := fr.err }
        credsTail service1 (some credentials) fr.response fr.err (some fr) now
      else
        credsTail service none none none none now
    else
      credsTail service (some credentials) none none none now

/-- `LastError`: the stored last error. -/
def TURNService.LastError (service : TURNService) : Option FetchErr :=
  service.err

/-! Concrete fixtures used by counterexamples and witnesses. -/

/-- A credential set with a 10-minute TTL. -/
def turnA : CredentialsData := ⟨600, "u", "p", [], ""⟩

/-- A credential set whose TTL of 90 seconds is not a multiple of 100. -/
def turn90 : CredentialsData := ⟨90, "", "", [], ""⟩

/-- A credential set with TTL 100 seconds. -/
def turn100 : CredentialsData := ⟨100, "", "", [], ""⟩

/-- A successful response echoing the sent nonce. -/
def respOK : CredentialsResponse := ⟨true, "make-me-random", turnA, "sess1"⟩

/-- A parsed response with the success flag cleared. -/
def respBad : CredentialsResponse := ⟨false, "make-me-random", turnA, "sess1"⟩

/-- A cached credential whose timer has not fired and that is not closed. -/
def credFresh : CachedCredentialsData := ⟨turnA, 600, false, false, false⟩

/-- A cached credential whose timer has fired. -/
def credExp : CachedCredentialsData := ⟨turnA, 600, true, false, false⟩

/-- A freshly constructed and opened service. -/
def svc0 : TURNService :=
  (NewTURNService "https://turn.example" 0).Open "tok" "cid" ""

/-- A service holding a non-expired cached credential, one handler bound. -/
def sHit : TURNService := { svc0 with credentials := some credFresh, handlers := 1 }

/-- A service with no cached credential and a stored transport error. -/
def sErr : TURNService := { svc0 with err := some .transportError }

/-- A service holding an expired credential and a stored transport error. -/
def sExpErr : TURNService :=
  { sErr with credentials := some credExp, handlers := 1 }

/-- A service eligible for a first `Close`: quit channel open, one fresh
credential whose own quit channel is open. -/
def sC9 : TURNService := { svc0 with credentials := some credFresh }

/-! Theorems. -/

/-- One credential transition never makes `Expired` false again. -/
theorem Expired_applyStep_mono (c : CachedCredentialsData) (st : CredStep)
    (h : c.Expired = true) : (applyStep c st).Expired = true := by
  cases st with
  | fire => simp [applyStep, CachedCredentialsData.Expired]
  | close =>
    rcases c with ⟨t, e, ex, cl, q⟩
    cases ex <;> cases cl <;> cases q <;>
      simp_all [applyStep, CachedCredentialsData.Close,
        CachedCredentialsData.Expired]

/-- Any sequence of credential transitions preserves `Expired = true`. -/
theorem Expired_foldl_mono (steps : List CredStep)
    (c : CachedCredentialsData) (h : c.Expired = true) :
    (steps.foldl applyStep c).Expired = true := by
  induction steps generalizing c with
  | nil => exact h
  | cons st rest ih => exact ih _ (Expired_applyStep_mono c st h)

/-- C4: `Expired()` is exactly `expired-by-timer OR closed`; the timer
firing and `Close` only ever set the two flags, so once `Expired()` is
true it stays true across every later sequence of transitions. -/
theorem claim_C4 (c : CachedCredentialsData) (steps : List CredStep)
    (st : CredStep) (h : c.Expired = true) :
    c.Expired = (c.expired || c.closed) ∧
    (steps.foldl applyStep c).Expired = true ∧
    (c.expired = true → (applyStep c st).expired = true) ∧
    (c.closed = true → (applyStep c st).closed = true) := by
  refine ⟨rfl, Expired_foldl_mono steps c h, ?_, ?_⟩ <;>
  · intro hset
    rcases c with ⟨t, e, ex, cl, q⟩
    cases st <;> cases ex <;> cases cl <;> cases q <;>
      simp_all [applyStep, CachedCredentialsData.Close,
        CachedCredentialsData.Expired]

/-- Witness for C4 at a concrete expired credential and step sequence. -/
theorem claim_C4_witness :
    credExp.Expired = (credExp.expired || credExp.closed) ∧
    (([CredStep.close, CredStep.fire]).foldl applyStep credExp).Expired
      = true ∧
    (credExp.expired = true →
      (applyStep credExp CredStep.close).expired = true) ∧
    (credExp.closed = true →
      (applyStep credExp CredStep.close).closed = true) :=
  claim_C4 credExp [CredStep.close, CredStep.fire] CredStep.close (by decide)

/-- C5: `Credentials(false)` performs no fetch, leaves the service state
untouched, and returns none when nothing is cached or the cached
credential is expired, else the cached instance itself. -/
theorem claim_C5 (s : TURNService) (net : NetOutcome) (now : Int) :
    (s.Credentials false net now).fetchRes = none ∧
    (s.Credentials false net now).state = s ∧
    (s.Credentials false net now).ret =
      (s.credentials.bind fun c =>
        if c.Expired then none else some c) := by
  cases hc : s.credentials with
  | none => simp [TURNService.Credentials, hc]
  | some c =>
    by_cases he : c.Expired <;>
      simp [TURNService.Credentials, hc, he, credsTail]

/-- C1 counterexample: for TTL = 90 and percentile 80 the claimed firing
time `TTL * p / 100` is 72 seconds, but the goroutine computes
`TTL / 100 * p = 0`, so the expired-by-timer flag is already set 0 seconds
after creation. -/
theorem claim_C1_counterexample :
    (observeAt turn90 80 0 0).expired = true ∧
    (90 * 80 / 100 : Int) = 72 ∧ (0 : Int) ≠ 72 := by
  decide

/-- C1 amended: the expired-by-timer flag is set exactly
`(TTL tdiv 100) * p` seconds after creation (Go divides first), the
absolute expiry is `creation + TTL`, and `TTL()` always reports
`max 0 (expires - now)`. -/
theorem claim_C1_amended (turn : CredentialsData) (p : Nat)
    (created now : Int) :
    ((observeAt turn p created now).expired = true ↔
      created + Int.tdiv turn.TTL 100 * (p : Int) ≤ now) ∧
    (observeAt turn p created now).expires = created + turn.TTL ∧
    CachedCredentialsData.TTL (observeAt turn p created now) now =
      max 0 ((observeAt turn p created now).expires - now) := by
  refine ⟨?_, ?_, ?_⟩
  · simp only [observeAt, NewCachedCredentialsData, timerExpiry]
    split <;> simp_all
  · simp only [observeAt, NewCachedCredentialsData]
    split <;> rfl
  · simp only [observeAt, NewCachedCredentialsData,
      CachedCredentialsData.TTL]
    split <;> dsimp only [] <;> split <;> omega

/-- C7 counterexample: a `CachedCredentialsData` built with percentile 0
is expired-by-timer immediately (0 seconds after creation), while with
the default 80 it is not — `NewCachedCredentialsData` does not map 0 to
80. -/
theorem claim_C7_counterexample :
    (observeAt turn100 0 0 0).expired = true ∧
    (observeAt turn100 80 0 0).expired = false ∧
    timerExpiry turn100 0 = 0 ∧ timerExpiry turn100 80 = 80 := by
  decide

/-- C7 amended: `NewTURNService` maps percentile 0 to the default 80, but
`NewCachedCredentialsData` applies no default of its own: with percentile
0 the early-expiry delay is 0 and the credential is expired-by-timer
already at its creation instant. -/
theorem claim_C7_amended (uri : String) (turn : CredentialsData)
    (created : Int) :
    (NewTURNService uri 0).expirationPercentile = 80 ∧
    timerExpiry turn 0 = 0 ∧
    (observeAt turn 0 created created).expired = true := by
  refine ⟨rfl, ?_, ?_⟩
  · simp [timerExpiry]
  · simp [observeAt, NewCachedCredentialsData, timerExpiry]

/-- C2 counterexample: a call served from a non-expired cached credential
(fetch flag false, no fetch performed) still spawns the registered
handler, with the cached credential and no error — observers do fire on
cache-hit reads. -/
theorem claim_C2_counterexample :
    (sHit.Credentials false NetOutcome.transportErr 0).fetchRes = none ∧
    (sHit.Credentials false NetOutcome.transportErr 0).ret
      = some credFresh ∧
    (sHit.Credentials false NetOutcome.transportErr 0).notifyCount = 1 ∧
    (sHit.Credentials false NetOutcome.transportErr 0).notified
      = some (some credFresh, none) := by
  decide

/-- C2 amended: every `Credentials` call spawns each registered handler
exactly once — whether or not a fetch occurred — except the one early
return taken when no credential is cached and the fetch flag is false,
which spawns none. -/
theorem claim_C2_amended (s : TURNService) (fetch : Bool)
    (net : NetOutcome) (now : Int) :
    (s.Credentials fetch net now).notified.isSome
      = (s.credentials.isSome || fetch) ∧
    (s.Credentials fetch net now).notifyCount
      = (if s.credentials.isSome || fetch then s.handlers else 0) := by
  cases hc : s.credentials with
  | none =>
    cases fetch <;>
      simp [TURNService.Credentials, hc, credsTail] <;> split <;> rfl
  | some c =>
    by_cases he : c.Expired <;> cases fetch <;>
      simp [TURNService.Credentials, hc, he, credsTail]

/-- C3 counterexample: with no cached credential and a stored transport
error, a forced call whose fetch succeeds installs the new credential but
leaves `LastError()` with the stale transport error — success on this
path does not clear the stored error. -/
theorem claim_C3_counterexample :
    (sErr.Credentials true (NetOutcome.ok respOK) 0).fetchRes
      = some ⟨some respOK, none⟩ ∧
    (sErr.Credentials true (NetOutcome.ok respOK) 0).state.credentials
      ≠ none ∧
    (sErr.Credentials true (NetOutcome.ok respOK) 0).state.LastError
      = some FetchErr.transportError := by
  decide

/-- C3 amended: a successful fetch clears the stored last error exactly
when it was triggered by an expired cached credential (that branch
assigns the fetch error unconditionally); the no-credential branch writes
the error only on failure, so a successful fetch there leaves the
previous stored error in place. -/
theorem claim_C3_amended (s s2 : TURNService) (c : CachedCredentialsData)
    (net : NetOutcome) (now : Int) (hc : s.credentials = some c)
    (he : c.Expired = true)
    (hok : (fetchCredentials s.accessToken s.clientID s.session net).err
      = none)
    (h2 : s2.credentials = none)
    (hok2 : (fetchCredentials s2.accessToken s2.clientID s2.session net).err
      = none) :
    (s.Credentials true net now).state.LastError = none ∧
    (s2.Credentials true net now).state.LastError = s2.LastError := by
  constructor
  · cases hr : (fetchCredentials s.accessToken s.clientID s.session
        net).response <;>
      simp [TURNService.Credentials, hc, he, credsTail, hok, hr,
        TURNService.LastError]
  · cases hr : (fetchCredentials s2.accessToken s2.clientID s2.session
        net).response <;>
      simp [TURNService.Credentials, h2, credsTail, hok2, hr,
        TURNService.LastError]

/-- Witness for C3 amended: the expired-credential service has its error
cleared by a successful fetch, while the credential-less service keeps
its stored transport error. -/
theorem claim_C3_witness :
    (sExpErr.Credentials true (NetOutcome.ok respOK) 0).state.LastError
      = none ∧
    (sErr.Credentials true (NetOutcome.ok respOK) 0).state.LastError
      = sErr.LastError :=
  claim_C3_amended sExpErr sErr credExp (NetOutcome.ok respOK) 0
    (by decide) (by decide) (by decide) (by decide) (by decide)

/-- C8: with both the access token and the client identifier empty,
`fetchCredentials` reports the configuration error as its result without
consulting the network (the result is the same for every network
outcome); the error arises exactly when both fields are empty. -/
theorem claim_C8 (a c session : String) (net net2 : NetOutcome) :
    fetchCredentials "" "" session net
      = { response := none, err := some FetchErr.configError } ∧
    fetchCredentials "" "" session net
      = fetchCredentials "" "" session net2 ∧
    ((fetchCredentials a c session net).err = some FetchErr.configError
      ↔ a = "" ∧ c = "") := by
  refine ⟨by simp [fetchCredentials], by simp [fetchCredentials], ?_⟩
  by_cases h : a = "" ∧ c = ""
  · simp [fetchCredentials, h]
  · cases net <;>
      simp [fetchCredentials, h] <;> split <;> simp_all <;> split <;>
        simp_all

/-- Witness for C8 at concrete identity fields and network outcomes. -/
theorem claim_C8_witness :
    fetchCredentials "" "" "" NetOutcome.transportErr
      = { response := none, err := some FetchErr.configError } ∧
    fetchCredentials "" "" "" NetOutcome.transportErr
      = fetchCredentials "" "" "" NetOutcome.decodeErr ∧
    ((fetchCredentials "tok" "" "" NetOutcome.transportErr).err
      = some FetchErr.configError ↔ "tok" = "" ∧ "" = "") :=
  claim_C8 "tok" "" "" NetOutcome.transportErr NetOutcome.decodeErr

/-- A parsed response that is logically invalid (success flag false, or
nonce mismatch) makes `fetchCredentials` return the response together
with the corresponding integrity error. -/
theorem fetchCredentials_ok_integrity (a c sess : String)
    (resp : CredentialsResponse) (htok : ¬(a = "" ∧ c = ""))
    (hbad : resp.Success = false ∨ resp.Nonce ≠ nonce) :
    fetchCredentials a c sess (.ok resp)
      = ⟨some resp,
         some (if resp.Success then .invalidNonce else .unsuccessful)⟩ := by
  cases hS : resp.Success with
  | false => simp [fetchCredentials, htok, hS]
  | true =>
    rcases hbad with hb | hb
    · simp_all
    · simp [fetchCredentials, htok, hS, hb]

/-- When the fetch result carries an error, `Credentials` installs
nothing: the stored credential and session survive unchanged. -/
theorem Credentials_no_install (s : TURNService) (fetch : Bool)
    (net : NetOutcome) (now : Int) (e : FetchErr)
    (h : (fetchCredentials s.accessToken s.clientID s.session net).err
      = some e) :
    (s.Credentials fetch net now).state.credentials = s.credentials ∧
    (s.Credentials fetch net now).state.session = s.session := by
  cases hc : s.credentials with
  | none =>
    cases fetch with
    | false => simp [TURNService.Credentials, hc]
    | true =>
      cases hr : (fetchCredentials s.accessToken s.clientID s.session
          net).response <;>
        simp [TURNService.Credentials, hc, credsTail, h, hr]
  | some c =>
    by_cases he : c.Expired <;> cases fetch <;>
      cases hr : (fetchCredentials s.accessToken s.clientID s.session
          net).response <;>
        simp [TURNService.Credentials, hc, he, credsTail, h, hr]

/-- C6: a parsed response with success=false (or a wrong echoed nonce)
yields an integrity error from `fetchCredentials`, and such a fetch
leaves the previously cached credential and the stored session exactly
as they were. -/
theorem claim_C6 (s : TURNService) (resp : CredentialsResponse)
    (fetch : Bool) (now : Int)
    (htok : ¬(s.accessToken = "" ∧ s.clientID = ""))
    (hbad : resp.Success = false ∨ resp.Nonce ≠ nonce) :
    ((fetchCredentials s.accessToken s.clientID s.session
        (.ok resp)).err.any FetchErr.isIntegrity) = true ∧
    (fetchCredentials s.accessToken s.clientID s.session
        (.ok resp)).response = some resp ∧
    (s.Credentials fetch (.ok resp) now).state.credentials
      = s.credentials ∧
    (s.Credentials fetch (.ok resp) now).state.session = s.session := by
  have hf := fetchCredentials_ok_integrity s.accessToken s.clientID
    s.session resp htok hbad
  have hni := Credentials_no_install s fetch (.ok resp) now
    (if resp.Success then .invalidNonce else .unsuccessful) (by rw [hf])
  refine ⟨?_, ?_, hni.1, hni.2⟩
  · rw [hf]
    cases resp.Success <;> simp [FetchErr.isIntegrity]
  · rw [hf]

/-- Witness for C6: a cached expired credential and stored session
survive a fetch whose response has success=false. -/
theorem claim_C6_witness :
    ((fetchCredentials sExpErr.accessToken sExpErr.clientID
        sExpErr.session (.ok respBad)).err.any FetchErr.isIntegrity)
      = true ∧
    (fetchCredentials sExpErr.accessToken sExpErr.clientID
        sExpErr.session (.ok respBad)).response = some respBad ∧
    (sExpErr.Credentials true (.ok respBad) 0).state.credentials
      = sExpErr.credentials ∧
    (sExpErr.Credentials true (.ok respBad) 0).state.session
      = sExpErr.session :=
  claim_C6 sExpErr respBad true 0 (by decide) (by decide)

/-- C9 counterexample: the first `Close` of a service succeeds, but a
second `Close` of the resulting state panics (close of an already-closed
quit channel), modelled as `none`. -/
theorem claim_C9_counterexample :
    (TURNService.Close svc0).isSome = true ∧
    ((TURNService.Close svc0).bind TURNService.Close) = none := by
  decide

/-- C9 amended: a first `Close` (quit channel still open, cached
credential closable) terminates the refresh loop (quit closed),
force-expires the cached credential if present and clears the identity
fields; but `Close` is not double-call safe: a second `Close` panics on
the already-closed quit channel. -/
theorem claim_C9_amended (s : TURNService) (hq : s.quitClosed = false)
    (hcred : (s.credentials.all fun c => c.expired || !c.quitClosed)
      = true) :
    (s.Close).isSome = true ∧
    ((s.Close).getD s).quitClosed = true ∧
    ((s.Close).getD s).accessToken = "" ∧
    ((s.Close).getD s).clientID = "" ∧
    ((s.Close).getD s).session = "" ∧
    ((s.Close).getD s).credentials.isSome = s.credentials.isSome ∧
    (((s.Close).getD s).credentials.all fun c => c.Expired) = true ∧
    ((s.Close).getD s).Close = none := by
  cases hc : s.credentials with
  | none => simp [TURNService.Close, hq, hc]
  | some c =>
    rcases c with ⟨t, xp, ex, cl, q⟩
    cases ex <;> cases q <;>
      simp_all [TURNService.Close, CachedCredentialsData.Close,
        CachedCredentialsData.Expired]

/-- Witness for C9 amended at a concrete open service holding one fresh
credential. -/
theorem claim_C9_witness :
    (sC9.Close).isSome = true ∧
    ((sC9.Close).getD sC9).quitClosed = true ∧
    ((sC9.Close).getD sC9).accessToken = "" ∧
    ((sC9.Close).getD sC9).clientID = "" ∧
    ((sC9.Close).getD sC9).session = "" ∧
    ((sC9.Close).getD sC9).credentials.isSome = sC9.credentials.isSome ∧
    (((sC9.Close).getD sC9).credentials.all fun c => c.Expired) = true ∧
    ((sC9.Close).getD sC9).Close = none :=
  claim_C9_amended sC9 (by decide) (by decide)

/-- C10: when the cached credential is expired and a forced call's fetch
fails, the call returns the old expired instance, keeps it installed as
current, records the error, and notifies handlers with that expired
credential together with the error. -/
theorem claim_C10 (s : TURNService) (c : CachedCredentialsData)
    (net : NetOutcome) (now : Int) (e : FetchErr)
    (hc : s.credentials = some c) (he : c.Expired = true)
    (hfail : (fetchCredentials s.accessToken s.clientID s.session net).err
      = some e) :
    (s.Credentials true net now).ret = some c ∧
    ((s.Credentials true net now).ret.all fun c2 => c2.Expired) = true ∧
    (s.Credentials true net now).state.credentials = some c ∧
    (s.Credentials true net now).state.err = some e ∧
    (s.Credentials true net now).notified = some (some c, some e) := by
  cases hr : (fetchCredentials s.accessToken s.clientID s.session
      net).response <;>
    simp [TURNService.Credentials, hc, he, credsTail, hfail, hr]

/-- Witness for C10: an expired credential plus a transport failure on
the forced refresh. -/
theorem claim_C10_witness :
    (sExpErr.Credentials true NetOutcome.transportErr 5).ret
      = some credExp ∧
    ((sExpErr.Credentials true NetOutcome.transportErr 5).ret.all
      fun c2 => c2.Expired) = true ∧
    (sExpErr.Credentials true NetOutcome.transportErr 5).state.credentials
      = some credExp ∧
    (sExpErr.Credentials true NetOutcome.transportErr 5).state.err
      = some FetchErr.transportError ∧
    (sExpErr.Credentials true NetOutcome.transportErr 5).notified
      = some (some credExp, some FetchErr.transportError) :=
  claim_C10 sExpErr credExp NetOutcome.transportErr 5
    FetchErr.transportError (by decide) (by decide) (by decide)

end Turnservicecli
